import Mathlib

/-!
Verification development for the Windows platform shim of the
missing_plugin_exception_detective plugin.

The visible source is the plugin class header
(src/windows/missing_plugin_exception_detective_plugin.h) and the C-linkage
registration entry point
(src/windows/missing_plugin_exception_detective_plugin_c_api.cpp).
The translation unit defining the bodies of HandleMethodCall and
RegisterWithRegistrar is not among the given sources; those bodies are
modelled from the specification, as marked on each such definition.
-/

namespace missing_plugin_exception_detective

/-- EncodableValue: the encoded, dynamically-typed argument payload of the
method channel, a tagged union of null, bool, number, string, sequence and
mapping (floating-point values are not needed by any claim and the numeric
case is modelled by integers). -/
inductive EncodableValue where
  | null
  | boolean (b : Bool)
  | integer (n : Int)
  | str (s : String)
  | sequence (xs : List EncodableValue)
  | mapping (pairs : List (EncodableValue × EncodableValue))

/-- MethodCall: an immutable value pair of method name and encoded
arguments, created by the host per invocation. -/
structure MethodCall where
  method : String
  arguments : EncodableValue

/-- ResultAnswer: one terminal operation of the MethodResult sink — success
with a value, error with code, message and optional details, or
not-implemented. -/
inductive ResultAnswer where
  | success (value : EncodableValue)
  | error (code : String) (message : String) (details : Option EncodableValue)
  | notImplemented

/-- Fault: an internal fault raised while processing a call, carrying the
code and human-readable message used when it is converted to an
error-terminal answer at the bridge boundary. -/
structure Fault where
  code : String
  message : String

/-- MissingPluginExceptionDetectivePlugin: the plugin class. The header
declares no data members, so the embedded instance carries no state. -/
structure MissingPluginExceptionDetectivePlugin where

/-- Modelled from the spec: the dispatch table of recognized method names
(the translation unit defining HandleMethodCall is not under src/). The
visible source declares no recognized method names, so the table is empty. -/
def recognizedHandlers : List (String × (EncodableValue → ResultAnswer)) := []

/-- recognizedMethodNames: the method names the dispatch table recognizes. -/
def recognizedMethodNames : List String := recognizedHandlers.map Prod.fst

/-- Modelled from the spec: the body of
MissingPluginExceptionDetectivePlugin::HandleMethodCall before the boundary
guard (its defining translation unit is not under src/; only the declaration
in the header is). It inspects the call's method name and dispatches: a
recognized method answers through its handler, an unrecognized one answers
not-implemented; an internal fault escapes the body as an exception. The
result lists the sink invocations the body performs, in order. -/
def HandleMethodCallBody (call : MethodCall) (fault : Option Fault) :
    Except Fault (List ResultAnswer) :=
  match fault with
  | some f => Except.error f
  | none =>
    match recognizedHandlers.lookup call.method with
    | some h => Except.ok [h call.arguments]
    | none => Except.ok [ResultAnswer.notImplemented]

/-- Modelled from the spec: HandleMethodCall at the bridge boundary (its
defining translation unit is not under src/). It runs the body and converts
any internal fault into a single error-terminal invocation; the function is
total, so no fault crosses the boundary into the host's dispatch loop. The
result lists the sink invocations performed for the call, in order. -/
def MissingPluginExceptionDetectivePlugin.HandleMethodCall
    (call : MethodCall) (fault : Option Fault) : List ResultAnswer :=
  match HandleMethodCallBody call fault with
  | Except.ok invocations => invocations
  | Except.error f => [ResultAnswer.error f.code f.message none]

/-- Registrar: the host's registry for this plugin context, mapping channel
names to installed handler instances. -/
structure Registrar where
  handlers : List (String × MissingPluginExceptionDetectivePlugin)

/-- Modelled from the spec: the fixed, statically-known channel name the
bridge binds to (the translation unit naming it is not under src/). -/
def channelName : String := "missing_plugin_exception_detective"

/-- Modelled from the spec: the body of
MissingPluginExceptionDetectivePlugin::RegisterWithRegistrar (its defining
translation unit is not under src/; only the declaration in the header is).
Given a registrar, it constructs one bridge instance, binds it to the fixed
channel name and installs it as that channel's handler. The second component
lists the method-call handler invocations performed during registration,
which are none. -/
def MissingPluginExceptionDetectivePlugin.RegisterWithRegistrar
    (registrar : Registrar) : Registrar × List ResultAnswer :=
  ({ handlers := (channelName, MissingPluginExceptionDetectivePlugin.mk) :: registrar.handlers },
   [])

/-- Modelled from the spec: the host registrar manager's registrar
resolution (PluginRegistrarManager is host-runtime code outside this
repository). A null or absent registrar reference is a fatal registration
failure producing no registrar; a valid reference resolves to its typed
registrar. -/
def GetRegistrar (ref : Option Registrar) : Except Unit Registrar :=
  match ref with
  | none => Except.error ()
  | some r => Except.ok r

/-- Embedding of MissingPluginExceptionDetectivePluginCApiRegisterWithRegistrar
(src/windows/missing_plugin_exception_detective_plugin_c_api.cpp): it
forwards the registrar obtained from the host's registrar manager singleton
to the plugin class's RegisterWithRegistrar and does nothing else. -/
def MissingPluginExceptionDetectivePluginCApiRegisterWithRegistrar
    (ref : Option Registrar) : Except Unit (Registrar × List ResultAnswer) :=
  (GetRegistrar ref).map MissingPluginExceptionDetectivePlugin.RegisterWithRegistrar

/-- deliverCall: the host delivers a method call on a channel only to an
installed handler; with no registrar (after a failed registration) or no
handler installed on the channel, nothing is delivered. -/
def deliverCall (reg : Except Unit Registrar) (channel : String)
    (call : MethodCall) (fault : Option Fault) : Option (List ResultAnswer) :=
  match reg with
  | Except.error _ => none
  | Except.ok r =>
    match r.handlers.lookup channel with
    | some _ => some (MissingPluginExceptionDetectivePlugin.HandleMethodCall call fault)
    | none => none

/-- handleCalls: the answers produced for a sequence of method calls handled
by one bridge instance. The class declares no data members, so no state
threads from one call to the next. -/
def handleCalls (calls : List (MethodCall × Option Fault)) : List (List ResultAnswer) :=
  calls.map (fun cf => MissingPluginExceptionDetectivePlugin.HandleMethodCall cf.1 cf.2)

/-- Modelled from the spec: the call cell as the host sees it across one
handler run (the handler's defining translation unit is not under src/). The
declaration receives the call by const reference and the modelled body
performs no write to it, so the embedding returns the cell unchanged
alongside the sink invocations. -/
def HandleMethodCallFull (call : MethodCall) (fault : Option Fault) :
    MethodCall × List ResultAnswer :=
  (call, MissingPluginExceptionDetectivePlugin.HandleMethodCall call fault)

/-- ClassDeclaration: the special-member-function facts recorded by a C++
class declaration, as far as the claims need them. -/
structure ClassDeclaration where
  copyConstructorDeleted : Bool
  copyAssignmentDeleted : Bool

/-- pluginClassDeclaration: the declaration facts of
MissingPluginExceptionDetectivePlugin from the header, whose lines 19-21
delete the copy constructor and the copy assignment operator. -/
def pluginClassDeclaration : ClassDeclaration :=
  { copyConstructorDeleted := true, copyAssignmentDeleted := true }

/-- SinkState: the per-call state machine of the result sink, with the two
states awaiting-answer and answered. -/
inductive SinkState where
  | awaiting
  | answered

/-- invokeTerminal: a terminal operation on the sink succeeds only in the
awaiting state, consuming the sink into the answered state; in the answered
state every terminal operation is rejected. -/
def invokeTerminal (s : SinkState) (a : ResultAnswer) :
    Option (SinkState × ResultAnswer) :=
  match s with
  | SinkState.awaiting => some (SinkState.answered, a)
  | SinkState.answered => none

/-- runSink: replay a list of sink invocations against the sink state
machine, failing if any invocation hits an already-answered sink. -/
def runSink (s : SinkState) : List ResultAnswer → Option SinkState
  | [] => some s
  | a :: rest =>
    match invokeTerminal s a with
    | none => none
    | some (s2, _) => runSink s2 rest

/-- C1: for every method call delivered to HandleMethodCall, the result sink
is invoked exactly once — never zero times and never more than once —
whether or not an internal fault occurs during handling. -/
theorem handleMethodCall_invokes_sink_exactly_once
    (call : MethodCall) (fault : Option Fault) :
    (MissingPluginExceptionDetectivePlugin.HandleMethodCall call fault).length = 1 := by
  cases fault <;> rfl

/-- C2: for every method call whose method name is not recognized — and the
visible source declares no recognized method names — HandleMethodCall
invokes the sink's not-implemented terminal operation exactly once. -/
theorem handleMethodCall_unrecognized_notImplemented
    (call : MethodCall) (_h : call.method ∉ recognizedMethodNames) :
    MissingPluginExceptionDetectivePlugin.HandleMethodCall call none
      = [ResultAnswer.notImplemented] := rfl

/-- C2 witness: the call with method "ping" and null arguments is
unrecognized and is answered with exactly one not-implemented invocation. -/
theorem handleMethodCall_ping_notImplemented_witness :
    "ping" ∉ recognizedMethodNames ∧
    MissingPluginExceptionDetectivePlugin.HandleMethodCall
      { method := "ping", arguments := EncodableValue.null } none
      = [ResultAnswer.notImplemented] :=
  ⟨by simp [recognizedMethodNames, recognizedHandlers],
   handleMethodCall_unrecognized_notImplemented
     { method := "ping", arguments := EncodableValue.null }
     (by simp [recognizedMethodNames, recognizedHandlers])⟩

/-- C3: no fault propagates past the bridge boundary: for every method
call, an internal fault raised while processing is converted into exactly
one error-terminal invocation of the result sink. -/
theorem handleMethodCall_fault_converted_to_single_error
    (call : MethodCall) (f : Fault) :
    MissingPluginExceptionDetectivePlugin.HandleMethodCall call (some f)
      = [ResultAnswer.error f.code f.message none] := rfl

/-- C4: registration attempted with a null or absent registrar reference is
a fatal registration failure: no registrar state is produced, no handler is
installed, and no method call is ever delivered through the failed
registration on any channel. -/
theorem capi_null_registrar_fatal_no_install :
    MissingPluginExceptionDetectivePluginCApiRegisterWithRegistrar none
      = Except.error () ∧
    ∀ (channel : String) (call : MethodCall) (fault : Option Fault),
      deliverCall
        ((MissingPluginExceptionDetectivePluginCApiRegisterWithRegistrar none).map Prod.fst)
        channel call fault = none :=
  ⟨rfl, fun _ _ _ => rfl⟩

/-- C5: RegisterWithRegistrar on a non-null registrar installs exactly one
new bridge instance bound to the fixed channel name, leaves the other
registrations unchanged, and performs no method-call handler invocation. -/
theorem registerWithRegistrar_installs_one_handler_no_invocation
    (r : Registrar) :
    (MissingPluginExceptionDetectivePlugin.RegisterWithRegistrar r).1.handlers
      = (channelName, MissingPluginExceptionDetectivePlugin.mk) :: r.handlers ∧
    (MissingPluginExceptionDetectivePlugin.RegisterWithRegistrar r).2 = [] :=
  ⟨rfl, rfl⟩

/-- C6: the C-linkage registration entry point only forwards: on a resolved
registrar its whole effect equals calling the plugin class's
RegisterWithRegistrar on the registrar obtained from the host's registrar
manager, with no other observable work. -/
theorem capi_register_forwards_to_plugin_register (r : Registrar) :
    MissingPluginExceptionDetectivePluginCApiRegisterWithRegistrar (some r)
      = Except.ok (MissingPluginExceptionDetectivePlugin.RegisterWithRegistrar r) := rfl

/-- C7: no state persists across method calls: the terminal answer produced
for the last call of any call history depends only on that call and its
fault, not on the earlier calls handled by the same bridge instance. -/
theorem handleMethodCall_stateless_across_calls
    (prev : List (MethodCall × Option Fault)) (call : MethodCall)
    (fault : Option Fault) :
    (handleCalls (prev ++ [(call, fault)])).getLast?
      = some (MissingPluginExceptionDetectivePlugin.HandleMethodCall call fault) := by
  simp [handleCalls, List.getLast?_append]

/-- C8: the method call is read-only to the bridge: across a handler run,
the call's method name and arguments are unchanged. -/
theorem handleMethodCall_leaves_call_unchanged
    (call : MethodCall) (fault : Option Fault) :
    (HandleMethodCallFull call fault).1.method = call.method ∧
    (HandleMethodCallFull call fault).1.arguments = call.arguments :=
  ⟨rfl, rfl⟩

/-- C9: the result sink is single-use and exclusively consumed by the
handler: replaying the handler's invocations against an awaiting sink
consumes it into the answered state, and in the answered state every
further terminal operation is rejected. -/
theorem sink_single_use (call : MethodCall) (fault : Option Fault) :
    runSink SinkState.awaiting
      (MissingPluginExceptionDetectivePlugin.HandleMethodCall call fault)
      = some SinkState.answered ∧
    ∀ a : ResultAnswer, invokeTerminal SinkState.answered a = none := by
  refine ⟨?_, fun a => rfl⟩
  cases fault <;> rfl

/-- C10: the plugin class deletes its copy constructor and copy assignment
operator, and each registration installs exactly one bridge instance, so
the handler is never duplicated. -/
theorem plugin_noncopyable_single_instance :
    pluginClassDeclaration.copyConstructorDeleted = true ∧
    pluginClassDeclaration.copyAssignmentDeleted = true ∧
    ∀ r : Registrar,
      (MissingPluginExceptionDetectivePlugin.RegisterWithRegistrar r).1.handlers.length
        = r.handlers.length + 1 :=
  ⟨rfl, rfl, fun _ => rfl⟩

end missing_plugin_exception_detective
